import Mathlib

/-!
Shallow embedding of the DadasPS audio capture and transcription scripts and
proofs checking the specification claims against the code.

Embedded sources:
- code_1.py : class AdaptiveAudioRecorder (silence-gated recording, chunk
  splitting, chunked transcription with a fallback engine).
- code-3.py : fixed-duration record-then-transcribe script.

Sample amplitudes are modelled as rationals, sample counts as naturals.
-/

namespace DadasPS

/-- Mean absolute amplitude of a block, np.abs(audio_chunk).mean()
(code_1.py line 48).  The audio stream never delivers an empty block;
theorems about silence classification carry a nonemptiness hypothesis. -/
def meanAbs (chunk : List ℚ) : ℚ :=
  (chunk.map (fun x => |x|)).sum / chunk.length

/-- Default silence threshold of AdaptiveAudioRecorder._is_silent, 0.01
(code_1.py line 40). -/
def silence_threshold : ℚ := 1 / 100

/-- AdaptiveAudioRecorder._is_silent (code_1.py lines 40-48):
return np.abs(audio_chunk).mean() < threshold. -/
def is_silent (chunk : List ℚ) (threshold : ℚ) : Bool :=
  decide (meanAbs chunk < threshold)

/-- Mutable state of an AdaptiveAudioRecorder during a session: the fields
self.recording, self.frames, self.last_sound_time (code_1.py lines 29-31,
54-56) together with the configuration value self.pause_threshold. -/
structure RecorderState where
  recording : Bool
  frames : List (List ℚ)
  last_sound_time : ℚ
  pause_threshold : ℚ
deriving DecidableEq

/-- The third argument sounddevice passes to a stream callback: the PortAudio
PaStreamCallbackTimeInfo struct.  Its only fields are the three timestamps
below (sounddevice / PortAudio API). -/
structure PaStreamCallbackTimeInfo where
  inputBufferAdcTime : ℚ
  currentTime : ℚ
  outputBufferDacTime : ℚ
deriving DecidableEq

/-- Attribute lookup on the PortAudio time-info struct: exactly the three
declared timestamp fields exist; any other attribute name is an
AttributeError, modelled as none. -/
def PaStreamCallbackTimeInfo.attr (t : PaStreamCallbackTimeInfo) :
    String → Option ℚ
  | "inputBufferAdcTime" => some t.inputBufferAdcTime
  | "currentTime" => some t.currentTime
  | "outputBufferDacTime" => some t.outputBufferDacTime
  | _ => none

/-- Message of the exception raised by the expression time.time() inside
audio_callback. -/
def attribute_error_msg : String :=
  "AttributeError: cdata struct PaStreamCallbackTimeInfo has no field time"

/-- Evaluation of the expression time.time() inside audio_callback
(code_1.py lines 65 and 70).  By Python scoping the callback parameter named
time (the sounddevice time-info struct, code_1.py line 58) shadows the
module-level time import, so time.time is an attribute lookup on that struct.
The struct has no field named time, so the lookup raises AttributeError; even
if such a field existed its value would be a float, not callable. -/
def time_time (t : PaStreamCallbackTimeInfo) : Except String ℚ :=
  match t.attr "time" with
  | none => Except.error attribute_error_msg
  | some _ => Except.error "TypeError: float object is not callable"

/-- audio_callback defined inside AdaptiveAudioRecorder.record_audio
(code_1.py lines 58-73), translated statement by statement.  The status
parameter only drives logging and is omitted.  A raised exception is
modelled as Except.error; it leaves the recorder state unchanged. -/
def audio_callback (self : RecorderState) (indata : List ℚ)
    (timeinfo : PaStreamCallbackTimeInfo) : Except String RecorderState :=
  if is_silent indata silence_threshold then
    match time_time timeinfo with
    | Except.error e => Except.error e
    | Except.ok now =>
      if now - self.last_sound_time > self.pause_threshold then
        Except.ok { self with recording := false }
      else
        Except.ok { self with frames := self.frames ++ [indata] }
  else
    match time_time timeinfo with
    | Except.error e => Except.error e
    | Except.ok now =>
      Except.ok { self with last_sound_time := now
                           , frames := self.frames ++ [indata] }

/-- One recording session: the stream invokes audio_callback once per
delivered block (paired with its time-info) while self.recording holds.
An exception escaping the callback makes sounddevice abort the stream, so no
further callback runs and the recorder state is left as it was. -/
def run_session (self : RecorderState) :
    List (List ℚ × PaStreamCallbackTimeInfo) → RecorderState
  | [] => self
  | (b, ti) :: rest =>
    if self.recording then
      match audio_callback self b ti with
      | Except.ok next => run_session next rest
      | Except.error _ => self
    else
      self

/-- Loop body of AdaptiveAudioRecorder._process_chunks (code_1.py lines
143-155): for i in range(0, len(audio_data), chunk_samples) take the slice
audio_data[i : i+chunk_samples]; break when its length is below
chunk_samples / 2, else emit it.  The integer comparison
len < S / 2 (Python float division) is written 2 * len < S. -/
def chunkLoop (S : Nat) (hS : 0 < S) (audio : List ℚ) : List (List ℚ) :=
  if 2 * (audio.take S).length < S then []
  else audio.take S :: chunkLoop S hS (audio.drop S)
termination_by audio.length
decreasing_by
  rename_i h
  simp only [List.length_take] at h
  simp only [List.length_drop]
  omega

/-- AdaptiveAudioRecorder._process_chunks (code_1.py lines 132-155) viewed
as the list of emitted chunks, for chunk size S = chunk_samples =
int(chunk_duration * sample_rate).  S = 0 would make range() raise
ValueError; the recorder always has S = 30 * 44100 > 0, and every theorem
below assumes 0 < S. -/
def process_chunks (S : Nat) (audio : List ℚ) : List (List ℚ) :=
  if hS : 0 < S then chunkLoop S hS audio else []

/-- Truncation toward zero of a rational, the C float-to-integer cast numpy
applies in np.int16(...). -/
def trunc_toward_zero (x : ℚ) : ℤ :=
  if 0 ≤ x then ⌊x⌋ else ⌈x⌉

/-- The value np.int16(x * 32767) for one sample x: scale, truncate toward
zero, wrap into the 16-bit two-complement range (code_1.py line 122). -/
def int16_cast (x : ℚ) : ℤ :=
  Int.bmod (trunc_toward_zero (x * 32767)) 65536

/-- A WAV file as produced by the wave module: the three header parameters
set by _save_wav plus the int16 payload written by writeframes.  Each payload
sample occupies 2 bytes in the data chunk. -/
structure WavFile where
  nchannels : Nat
  sampwidth : Nat
  framerate : Nat
  samples : List ℤ
deriving DecidableEq

/-- AdaptiveAudioRecorder._save_wav (code_1.py lines 114-130): scale the
buffer to int16 and write it with setnchannels(self.channels),
setsampwidth(2), setframerate(self.sample_rate). -/
def save_wav (channels sample_rate : Nat) (audio_data : List ℚ) : WavFile :=
  { nchannels := channels
  , sampwidth := 2
  , framerate := sample_rate
  , samples := audio_data.map int16_cast }

/-- Number of sample frames the wave module reports when the file is read
back: the byte length of the data chunk (2 bytes per stored int16 sample)
divided by the frame size nchannels * sampwidth. -/
def wav_read_nframes (w : WavFile) : Nat :=
  2 * w.samples.length / (w.nchannels * w.sampwidth)

/-- AdaptiveAudioRecorder.save_recording (code_1.py lines 92-112): with no
frames, print and return (none); otherwise concatenate the frames, write the
full recording with _save_wav and split it with _process_chunks.  The result
pairs the full-recording WAV with the list of emitted chunks. -/
def save_recording (channels sample_rate S : Nat) (frames : List (List ℚ)) :
    Option (WavFile × List (List ℚ)) :=
  if frames.isEmpty then none
  else
    some (save_wav channels sample_rate frames.flatten,
          process_chunks S frames.flatten)

/-- Tail of AdaptiveAudioRecorder.record_audio (code_1.py lines 76-90): the
stream body runs under try, an exception from the capture stream is caught
and printed by the except clause, and the finally clause calls
self.save_recording() in every case, on whatever frames the session
accumulated.  streamError is the exception message, if any. -/
def record_audio_teardown (channels sample_rate S : Nat)
    (streamError : Option String) (frames : List (List ℚ)) :
    Option (WavFile × List (List ℚ)) :=
  match streamError with
  | some _ => save_recording channels sample_rate S frames
  | none => save_recording channels sample_rate S frames

/-- Outcome of one call to the primary engine recognize_google: recognized
text, or one of the two speech_recognition exception types. -/
inductive GoogleResult where
  | text (t : String)
  | unknownValueError
  | requestError (msg : String)
deriving DecidableEq

/-- Outcome of one call to the fallback engine recognize_sphinx: recognized
text, or any exception. -/
inductive SphinxResult where
  | text (t : String)
  | exc
deriving DecidableEq

/-- What _transcribe_chunk does with one chunk file. -/
inductive ChunkOutcome where
  | transcribed (t : String)
  | skippedUnknown
  | skippedFailed
deriving DecidableEq

/-- Engine-selection logic of AdaptiveAudioRecorder._transcribe_chunk
(code_1.py lines 163-189), parametrised by the outcome each engine would
produce on this chunk.  The second component counts how many times
recognize_sphinx is invoked.  On recognized text the transcript file is
written (outcome transcribed); on UnknownValueError the chunk is logged and
skipped (line 171-173); on RequestError the fallback runs once inside its
own try, and any exception there skips the chunk with an error log
(lines 174-180). -/
def transcribe_chunk (google : GoogleResult) (sphinx : SphinxResult) :
    ChunkOutcome × Nat :=
  match google with
  | GoogleResult.text t => (ChunkOutcome.transcribed t, 0)
  | GoogleResult.unknownValueError => (ChunkOutcome.skippedUnknown, 0)
  | GoogleResult.requestError _ =>
    match sphinx with
    | SphinxResult.text t => (ChunkOutcome.transcribed t, 1)
    | SphinxResult.exc => (ChunkOutcome.skippedFailed, 1)

/-- convert_speech_to_text (code-3.py lines 26-41), parametrised by the
outcome of the recognize_google call, translating its try and the two except
clauses.  The return type String records that every engine outcome is mapped
to a string and neither exception propagates. -/
def convert_speech_to_text (outcome : GoogleResult) : String :=
  match outcome with
  | GoogleResult.text t => t
  | GoogleResult.unknownValueError =>
      "Speech recognition could not understand the audio"
  | GoogleResult.requestError e =>
      "Could not request results from speech recognition service; " ++ e

/-- Content main of code-3.py writes to the output text file (lines 58-64):
exactly the string returned by convert_speech_to_text. -/
def main_transcript_content (outcome : GoogleResult) : String :=
  convert_speech_to_text outcome

/-- Test vector: a buffer of six zero samples. -/
def qzeros6 : List ℚ := [0, 0, 0, 0, 0, 0]

/-- Test vector: a buffer of seven zero samples. -/
def qzeros7 : List ℚ := [0, 0, 0, 0, 0, 0, 0]

/-! ## Helper lemmas -/

theorem chunkLoop_eq (S : Nat) (hS : 0 < S) (audio : List ℚ) :
    chunkLoop S hS audio =
      if 2 * (audio.take S).length < S then []
      else audio.take S :: chunkLoop S hS (audio.drop S) := by
  rw [chunkLoop]

theorem chunkLoop_nil (S : Nat) (hS : 0 < S) : chunkLoop S hS [] = [] := by
  rw [chunkLoop_eq]
  simp only [List.take_nil, List.length_nil, Nat.mul_zero]
  rw [if_pos hS]

theorem time_time_error (t : PaStreamCallbackTimeInfo) :
    time_time t = Except.error attribute_error_msg := rfl

theorem audio_callback_error (self : RecorderState) (indata : List ℚ)
    (timeinfo : PaStreamCallbackTimeInfo) :
    audio_callback self indata timeinfo = Except.error attribute_error_msg := by
  unfold audio_callback
  rw [time_time_error]
  split <;> rfl

theorem chunkLoop_count (S : Nat) (hS : 0 < S) :
    ∀ (n : Nat) (audio : List ℚ), audio.length ≤ n →
      (chunkLoop S hS audio).length =
        if 2 * (audio.length % S) < S then audio.length / S
        else audio.length / S + 1 := by
  intro n
  induction n with
  | zero =>
    intro audio hlen
    have haudio : audio = [] := List.eq_nil_of_length_eq_zero (Nat.le_zero.mp hlen)
    subst haudio
    rw [chunkLoop_nil]
    simp only [List.length_nil, Nat.zero_mod, Nat.zero_div, Nat.mul_zero]
    rw [if_pos hS]
  | succ n ih =>
    intro audio hlen
    rw [chunkLoop_eq]
    by_cases hc : 2 * (audio.take S).length < S
    · rw [if_pos hc]
      simp only [List.length_take] at hc
      have hsmall : audio.length < S := by omega
      have hm : audio.length % S = audio.length := Nat.mod_eq_of_lt hsmall
      have hd : audio.length / S = 0 := Nat.div_eq_of_lt hsmall
      rw [hm, hd, if_pos (by omega)]
      rfl
    · rw [if_neg hc]
      simp only [List.length_cons, List.length_take] at hc ⊢
      have hpos : 0 < audio.length := by omega
      have hrest : (audio.drop S).length ≤ n := by
        simp only [List.length_drop]; omega
      rw [ih (audio.drop S) hrest]
      simp only [List.length_drop]
      rcases Nat.lt_or_ge audio.length S with h1 | h1
      · have hz : audio.length - S = 0 := by omega
        rw [hz, Nat.mod_eq_of_lt h1, Nat.div_eq_of_lt h1]
        simp only [Nat.zero_mod, Nat.zero_div, Nat.mul_zero]
        rw [if_pos hS, if_neg (by omega)]
      · have hmod : (audio.length - S) % S = audio.length % S :=
          (Nat.mod_eq_sub_mod h1).symm
        have hdiv : audio.length / S = (audio.length - S) / S + 1 :=
          Nat.div_eq_sub_div hS h1
        rw [hmod, hdiv]
        by_cases hcond : 2 * (audio.length % S) < S
        · rw [if_pos hcond, if_pos hcond]
        · rw [if_neg hcond, if_neg hcond]

theorem chunkLoop_partition (S : Nat) (hS : 0 < S) :
    ∀ (n : Nat) (audio : List ℚ), audio.length ≤ n →
      ∃ r, (chunkLoop S hS audio).flatten ++ r = audio ∧ 2 * r.length < S := by
  intro n
  induction n with
  | zero =>
    intro audio hlen
    have haudio : audio = [] := List.eq_nil_of_length_eq_zero (Nat.le_zero.mp hlen)
    subst haudio
    exact ⟨[], by simp [chunkLoop_nil], by omega⟩
  | succ n ih =>
    intro audio hlen
    rw [chunkLoop_eq]
    by_cases hc : 2 * (audio.take S).length < S
    · rw [if_pos hc]
      refine ⟨audio, by simp, ?_⟩
      simp only [List.length_take] at hc
      omega
    · rw [if_neg hc]
      have hrest : (audio.drop S).length ≤ n := by
        simp only [List.length_take] at hc
        simp only [List.length_drop]
        omega
      obtain ⟨r, hr1, hr2⟩ := ih (audio.drop S) hrest
      refine ⟨r, ?_, hr2⟩
      simp only [List.flatten_cons, List.append_assoc, hr1, List.take_append_drop]

theorem chunkLoop_sizes (S : Nat) (hS : 0 < S) :
    ∀ (n : Nat) (audio : List ℚ), audio.length ≤ n →
      ∀ c ∈ chunkLoop S hS audio, c.length ≤ S ∧ S ≤ 2 * c.length := by
  intro n
  induction n with
  | zero =>
    intro audio hlen
    have haudio : audio = [] := List.eq_nil_of_length_eq_zero (Nat.le_zero.mp hlen)
    subst haudio
    simp [chunkLoop_nil]
  | succ n ih =>
    intro audio hlen
    rw [chunkLoop_eq]
    by_cases hc : 2 * (audio.take S).length < S
    · rw [if_pos hc]
      simp
    · rw [if_neg hc]
      intro c hc2
      rcases List.mem_cons.mp hc2 with h | h
      · subst h
        simp only [List.length_take] at hc ⊢
        omega
      · have hrest : (audio.drop S).length ≤ n := by
          simp only [List.length_take] at hc
          simp only [List.length_drop]
          omega
        exact ih (audio.drop S) hrest c h

theorem chunkLoop_ne_nil (S : Nat) (hS : 0 < S) (audio : List ℚ)
    (h : chunkLoop S hS audio ≠ []) : S ≤ 2 * (audio.take S).length := by
  rw [chunkLoop_eq] at h
  by_cases hc : 2 * (audio.take S).length < S
  · rw [if_pos hc] at h
    exact absurd rfl h
  · omega

theorem chunkLoop_dropLast (S : Nat) (hS : 0 < S) :
    ∀ (n : Nat) (audio : List ℚ), audio.length ≤ n →
      ∀ c ∈ (chunkLoop S hS audio).dropLast, c.length = S := by
  intro n
  induction n with
  | zero =>
    intro audio hlen
    have haudio : audio = [] := List.eq_nil_of_length_eq_zero (Nat.le_zero.mp hlen)
    subst haudio
    simp [chunkLoop_nil]
  | succ n ih =>
    intro audio hlen
    rw [chunkLoop_eq]
    by_cases hc : 2 * (audio.take S).length < S
    · rw [if_pos hc]
      simp
    · rw [if_neg hc]
      cases hrest : chunkLoop S hS (audio.drop S) with
      | nil => simp
      | cons b t =>
        have hne : chunkLoop S hS (audio.drop S) ≠ [] := by
          rw [hrest]; exact List.cons_ne_nil b t
        have hlong : S ≤ 2 * ((audio.drop S).take S).length :=
          chunkLoop_ne_nil S hS (audio.drop S) hne
        simp only [List.length_take, List.length_drop] at hlong
        have hfull : S ≤ audio.length := by omega
        rw [← hrest]
        intro c hcmem
        rw [List.dropLast_cons_of_ne_nil hne] at hcmem
        rcases List.mem_cons.mp hcmem with h | h
        · subst h
          simp only [List.length_take]
          omega
        · have hrlen : (audio.drop S).length ≤ n := by
            simp only [List.length_drop]
            simp only [List.length_take] at hc
            omega
          exact ih (audio.drop S) hrlen c h

/-! ## Claim theorems -/

/-- Claim C1, counterexample: on a 6-sample buffer with chunk size 4 the
splitter emits 2 chunks, not floor(6/4) = 1, and the last emitted chunk is a
partial chunk of 2 samples; the remainder of size 2 >= 4/2 is emitted rather
than dropped. -/
theorem c1_counterexample :
    (process_chunks 4 qzeros6).length ≠ qzeros6.length / 4 ∧
    (process_chunks 4 qzeros6).getLast?.map List.length = some 2 := by
  unfold process_chunks
  rw [dif_pos (by decide : (0:ℕ) < 4), chunkLoop_eq, chunkLoop_eq, chunkLoop_eq]
  decide

/-- Claim C1 as amended: the splitter emits floor(L/S) chunks when the
trailing remainder L mod S is shorter than S/2 (the remainder is dropped,
never padded), and floor(L/S) + 1 chunks when the remainder is at least S/2
(the remainder is emitted as a final partial chunk). -/
theorem c1_chunk_count (S : Nat) (audio : List ℚ) (hS : 0 < S) :
    (process_chunks S audio).length =
      if 2 * (audio.length % S) < S then audio.length / S
      else audio.length / S + 1 := by
  unfold process_chunks
  rw [dif_pos hS]
  exact chunkLoop_count S hS audio.length audio le_rfl

/-- Witness for c1_chunk_count at S = 4 on the 6-sample buffer. -/
theorem c1_chunk_count_witness :
    (process_chunks 4 qzeros6).length =
      if 2 * (qzeros6.length % 4) < 4 then qzeros6.length / 4
      else qzeros6.length / 4 + 1 :=
  c1_chunk_count 4 qzeros6 (by decide)

/-- Claim C2: _transcribe_chunk invokes recognize_sphinx exactly once when
recognize_google raises RequestError and never otherwise; UnknownValueError
skips the chunk with no fallback; if the fallback also fails the chunk is
skipped with an error log. -/
theorem c2_fallback_only_on_request_error (g : GoogleResult) (s : SphinxResult) :
    ((transcribe_chunk g s).2 = 1 ↔ ∃ m, g = GoogleResult.requestError m) ∧
    (transcribe_chunk g s).2 ≤ 1 ∧
    (g = GoogleResult.unknownValueError →
      transcribe_chunk g s = (ChunkOutcome.skippedUnknown, 0)) ∧
    (∀ m, g = GoogleResult.requestError m → s = SphinxResult.exc →
      transcribe_chunk g s = (ChunkOutcome.skippedFailed, 1)) := by
  cases g <;> cases s <;> simp [transcribe_chunk]

/-- Witness for c2_fallback_only_on_request_error: a service error on the
primary engine makes the fallback run exactly once. -/
theorem c2_fallback_witness :
    (transcribe_chunk (GoogleResult.requestError "net down") SphinxResult.exc).2
      = 1 :=
  (c2_fallback_only_on_request_error
    (GoogleResult.requestError "net down") SphinxResult.exc).1.mpr
    ⟨"net down", rfl⟩

/-- Claim C3: _is_silent classifies a block silent exactly when its mean
absolute amplitude is strictly below the threshold; a block whose mean
absolute amplitude equals the threshold is classified non-silent. -/
theorem c3_is_silent_strict_boundary (chunk : List ℚ) (threshold : ℚ)
    (_h : chunk ≠ []) :
    (is_silent chunk threshold = true ↔ meanAbs chunk < threshold) ∧
    (meanAbs chunk = threshold → is_silent chunk threshold = false) := by
  constructor
  · simp [is_silent]
  · intro he
    simp [is_silent, he]

/-- Witness for c3_is_silent_strict_boundary: a one-sample block whose mean
absolute amplitude is exactly the default threshold 1/100 is non-silent. -/
theorem c3_boundary_witness :
    is_silent [(1 : ℚ) / 100] silence_threshold = false :=
  (c3_is_silent_strict_boundary [(1 : ℚ) / 100] silence_threshold
    (by simp)).2 (by norm_num [meanAbs, silence_threshold])

/-- Claim C4, failing input: a recorder with pause_threshold = 10 and
last_sound_time = 0 receives a silent all-zero block whose stream time-info
reads currentTime = 20, so the silence gap exceeds the threshold; instead of
clearing the recording flag, the callback raises AttributeError at the
expression time.time(), because its parameter named time shadows the time
module and the sounddevice time-info struct has no field time.  The flag is
therefore never cleared. -/
theorem c4_stop_check_raises :
    audio_callback ⟨true, [], 0, 10⟩ [0, 0, 0] ⟨0, 20, 0⟩ =
      Except.error attribute_error_msg :=
  audio_callback_error ⟨true, [], 0, 10⟩ [0, 0, 0] ⟨0, 20, 0⟩

/-- Claim C5, failing input: a block delivered while recording is never
appended to the frames buffer, because the callback raises AttributeError at
time.time() before reaching the append; no successor state exists at all. -/
theorem c5_no_block_appended :
    ∀ st : RecorderState,
      audio_callback ⟨true, [], 0, 10⟩ [1, 1] ⟨0, 1, 0⟩ ≠ Except.ok st := by
  intro st
  rw [audio_callback_error]
  exact fun h => Except.noConfusion h

/-- Claim C6: when every delivered block is silent and the very first
silence check would not find the elapsed time past the pause threshold, the
recording flag is never cleared, so recording never naturally stops.  (It
holds degenerately: the callback raises AttributeError before it can clear
the flag, so the flag survives any input.) -/
theorem c6_all_silent_never_stops (init : RecorderState)
    (inputs : List (List ℚ × PaStreamCallbackTimeInfo))
    (hrec : init.recording = true)
    (hsilent : ∀ p ∈ inputs, is_silent p.1 silence_threshold = true)
    (hfirst : ∀ b ti rest, inputs = (b, ti) :: rest →
      ¬(ti.currentTime - init.last_sound_time > init.pause_threshold)) :
    (run_session init inputs).recording = true := by
  cases inputs with
  | nil => simpa [run_session] using hrec
  | cons p rest =>
    obtain ⟨b, ti⟩ := p
    simp [run_session, hrec, audio_callback_error]

/-- Witness for c6_all_silent_never_stops: one silent zero block delivered
one second into a session with a 10 second pause threshold leaves the
recorder recording. -/
theorem c6_witness :
    (run_session ⟨true, [], 0, 10⟩ [([0], ⟨0, 1, 0⟩)]).recording = true := by
  refine c6_all_silent_never_stops ⟨true, [], 0, 10⟩ [([0], ⟨0, 1, 0⟩)] rfl ?_ ?_
  · intro p hp
    have hp2 : p = ([0], (⟨0, 1, 0⟩ : PaStreamCallbackTimeInfo)) :=
      List.mem_singleton.mp hp
    subst hp2
    norm_num [is_silent, meanAbs, silence_threshold]
  · intro b ti rest h
    injection h with h1 h2
    injection h1 with hb hti
    subst hti
    norm_num

/-- Claim C7: the splitter partitions the buffer into consecutive
non-overlapping windows in increasing time order (their concatenation is an
initial segment of the buffer, nothing is padded in), every emitted window
holds at most S samples and at least S/2 samples, every window except
possibly the last holds exactly S samples, and the dropped remainder is
shorter than S/2. -/
theorem c7_chunk_partition (S : Nat) (audio : List ℚ) (hS : 0 < S) :
    (∃ r, (process_chunks S audio).flatten ++ r = audio ∧ 2 * r.length < S) ∧
    (∀ c ∈ process_chunks S audio, c.length ≤ S ∧ S ≤ 2 * c.length) ∧
    (∀ c ∈ (process_chunks S audio).dropLast, c.length = S) := by
  unfold process_chunks
  rw [dif_pos hS]
  exact ⟨chunkLoop_partition S hS audio.length audio le_rfl,
         chunkLoop_sizes S hS audio.length audio le_rfl,
         chunkLoop_dropLast S hS audio.length audio le_rfl⟩

/-- Witness for c7_chunk_partition at S = 3 on a 7-sample buffer. -/
theorem c7_chunk_partition_witness :
    (∃ r, (process_chunks 3 qzeros7).flatten ++ r = qzeros7 ∧
      2 * r.length < 3) ∧
    (∀ c ∈ process_chunks 3 qzeros7, c.length ≤ 3 ∧ 3 ≤ 2 * c.length) ∧
    (∀ c ∈ (process_chunks 3 qzeros7).dropLast, c.length = 3) :=
  c7_chunk_partition 3 qzeros7 (by decide)

/-- Claim C8: when the capture stream raises an error, record_audio still
runs save_recording in its finally clause, so a nonempty partial buffer is
flushed: the concatenated frames are written as the full-recording WAV and
split into chunks, rather than discarded. -/
theorem c8_error_still_flushes (channels sample_rate S : Nat) (err : String)
    (frames : List (List ℚ)) (h : frames ≠ []) :
    record_audio_teardown channels sample_rate S (some err) frames =
      some (save_wav channels sample_rate frames.flatten,
            process_chunks S frames.flatten) := by
  simp [record_audio_teardown, save_recording, h]

/-- Witness for c8_error_still_flushes: a device error mid-session with one
buffered block still produces the WAV and the chunk list. -/
theorem c8_error_still_flushes_witness :
    record_audio_teardown 1 44100 4 (some "PortAudioError") [qzeros6] =
      some (save_wav 1 44100 (List.flatten [qzeros6]),
            process_chunks 4 (List.flatten [qzeros6])) :=
  c8_error_still_flushes 1 44100 4 "PortAudioError" [qzeros6]
    (by simp)

/-- Claim C9: a WAV file written by _save_wav on a mono recorder reads back
with as many sample frames as the input buffer has samples, channel count 1,
a 16-bit sample width and the configured sample rate. -/
theorem c9_wav_roundtrip (sample_rate : Nat) (audio_data : List ℚ) :
    wav_read_nframes (save_wav 1 sample_rate audio_data) = audio_data.length ∧
    (save_wav 1 sample_rate audio_data).nchannels = 1 ∧
    (save_wav 1 sample_rate audio_data).sampwidth * 8 = 16 ∧
    (save_wav 1 sample_rate audio_data).framerate = sample_rate := by
  refine ⟨?_, rfl, rfl, rfl⟩
  simp only [wav_read_nframes, save_wav, List.length_map]
  omega

/-- Claim C10: convert_speech_to_text maps every recognizer outcome to a
string, never letting UnknownValueError or RequestError propagate, and main
writes exactly that string, so on an engine failure the fixed English error
message itself becomes the transcript file content. -/
theorem c10_transcription_total (outcome : GoogleResult) :
    main_transcript_content outcome = convert_speech_to_text outcome ∧
    convert_speech_to_text GoogleResult.unknownValueError =
      "Speech recognition could not understand the audio" ∧
    (∀ e, convert_speech_to_text (GoogleResult.requestError e) =
      "Could not request results from speech recognition service; " ++ e) ∧
    (∀ t, convert_speech_to_text (GoogleResult.text t) = t) :=
  ⟨rfl, rfl, fun _ => rfl, fun _ => rfl⟩

end DadasPS
